import Mathlib

/-!
Verification of the match-and-hydrate data access layer of the
`digitalarchive` client library (src/digitalarchive/models.py,
src/digitalarchive/matching.py).

The Python code is shallowly embedded: dataclass instances become Lean
structures, the `__dict__` of an instance becomes an association list from
field names to field values, the `UnhydratedField` sentinel class becomes a
distinguished constructor, Python exceptions become an error type threaded
through `Except`, and the two network primitives used by the matcher
(`api.search`, `api.get`, `api.get_date_range`) become oracle functions
supplied as input, with the number of network calls made returned
explicitly alongside each result.
-/

namespace DigitalArchive

instance {ε α : Type} [DecidableEq ε] [DecidableEq α] :
    DecidableEq (Except ε α) := fun a b =>
  match a, b with
  | .error x, .error y => decidable_of_iff (x = y) (by simp)
  | .error _, .ok _ => .isFalse (by simp)
  | .ok _, .error _ => .isFalse (by simp)
  | .ok x, .ok y => decidable_of_iff (x = y) (by simp)

/-- Python exceptions raised by the embedded code.  `keyError`,
`indexError`, `stopIteration`, `typeError` model the built-in exceptions;
`invalidSearchField`, `malformedDate`, `malformedLanguage` model the
exceptions of digitalarchive/exceptions.py; `fuelOut` is an artifact of
embedding the unbounded `while` pagination loop with fuel and is never
produced when enough fuel is supplied. -/
inductive PyError where
  | keyError
  | indexError
  | stopIteration
  | typeError
  | valueError
  | invalidSearchField
  | malformedDate
  | malformedLanguage
  | apiServerError
  | fuelOut
deriving DecidableEq, Repr

/-- The value stored in one field of a dataclass instance's `__dict__`:
either the `UnhydratedField` sentinel class object (models.py line 22) or a
real value (represented opaquely by a string). -/
inductive FieldValue where
  | sentinel
  | value (s : String)
deriving DecidableEq, Repr

/-- A Python instance `__dict__`: an association list from field names to
field values, in insertion order.  Keys are unique for genuine instances
because the dataclass machinery assigns each declared field once. -/
abbrev InstanceDict := List (String × FieldValue)

/-- Key lookup, `d[k]` / `d.get(k)`. -/
def dictGet : InstanceDict → String → Option FieldValue
  | [], _ => none
  | (k, v) :: d, f => if k = f then some v else dictGet d f

/-- Assignment `d[k] = v` to a key already present: Python dict
assignment replaces the stored value in place. -/
def dictSet : InstanceDict → String → FieldValue → InstanceDict
  | [], _, _ => []
  | (k', v') :: d, k, v =>
    if k' = k then (k, v) :: dictSet d k v else (k', v') :: dictSet d k v

/-- One iteration of the merge loop of `HydrateMixin.hydrate`
(models.py lines 100-102, identically Document.hydrate lines 770-772):
`if hydrated_fields.get(key) is UnhydratedField: hydrated_fields[key] = value`. -/
def mergeStep (acc : InstanceDict) (kv : String × FieldValue) : InstanceDict :=
  if dictGet acc kv.1 = some .sentinel then dictSet acc kv.1 kv.2 else acc

/-- The merge of `HydrateMixin.hydrate` (models.py lines 88-105): the
pre-fetch snapshot `unhydrated_fields` is folded over the freshly pulled
`hydrated_fields`, restoring the snapshot value wherever the fresh value is
the sentinel. -/
def hydrateMergeFields (pre post : InstanceDict) : InstanceDict :=
  pre.foldl mergeStep post

/-- Keys of an instance dict. -/
def dictKeys (d : InstanceDict) : List String := d.map Prod.fst

/-! ### Entity identity (models.py `Resource`, lines 28-45)

Every concrete dataclass in models.py inherits `__hash__`/`__eq__` from
`Resource`.  An entity is modelled by its concrete class, its `id`, and the
rest of its `__dict__`. -/

/-- The concrete dataclasses of models.py. -/
inductive Kind where
  | subject
  | language
  | transcript
  | translation
  | mediaFile
  | contributor
  | donor
  | coverage
  | collection
  | repository
  | publisher
  | docType
  | right
  | classification
  | document
  | theme
deriving DecidableEq, Repr

/-- An entity instance: concrete class, `id`, and all remaining fields of
its `__dict__` (sentinel or populated). -/
structure REntity where
  kind : Kind
  id : String
  fields : InstanceDict
deriving DecidableEq, Repr

/-- `Resource.__eq__` (models.py lines 41-45): returns `NotImplemented`
(modelled as `none`) when the concrete classes differ, otherwise compares
the ids. -/
def resourceEqMethod (a b : REntity) : Option Bool :=
  if a.kind = b.kind then some (a.id = b.id) else none

/-- The result of the Python `==` protocol on two (distinct) entity
instances: try `a.__eq__ b`, on `NotImplemented` try the reflected
`b.__eq__ a`, and when both return `NotImplemented` fall back to object
identity, which is `False` for two distinct instances. -/
def pyEq (a b : REntity) : Bool :=
  match resourceEqMethod a b with
  | some r => r
  | none =>
    match resourceEqMethod b a with
    | some r => r
    | none => false

/-- `Resource.__hash__` (models.py lines 38-39): `hash(self.id)`.  The hash
is modelled by the hashed key itself; only its dependence on the instance
matters here. -/
def resourceHash (a : REntity) : String := a.id

/-! ### Dates (`Document._process_date_searches`, models.py lines 842-875,
and the equivalent `ResourceMatcher._process_date_searches`, matching.py
lines 170-210) -/

/-- A `datetime.date`: year in 1..9999, month 1..12, day 1..31. -/
structure PyDate where
  year : Nat
  month : Nat
  day : Nat
deriving DecidableEq, Repr

/-- Decimal digits, most significant first, with explicit fuel so that the
definition is structurally recursive and evaluates by reduction.  Any fuel
exceeding `n` gives the digits of `n`. -/
def natDecimalDigitsAux : Nat → Nat → List Nat
  | 0, _ => []
  | fuel + 1, n =>
    if n < 10 then [n]
    else natDecimalDigitsAux fuel (n / 10) ++ [n % 10]

/-- Decimal digits of a natural number, most significant first; the digit
sequence printed by Python `str(n)` / `f"{n}"`. -/
def natDecimalDigits (n : Nat) : List Nat := natDecimalDigitsAux (n + 1) n

/-- The character of one decimal digit. -/
def digitChar (n : Nat) : Char := Char.ofNat (48 + n)

/-- Python `str(n)` for a natural number: its decimal digits, unpadded. -/
def natToDecimalString (n : Nat) : String :=
  ⟨(natDecimalDigits n).map digitChar⟩

/-- `d.strftime("%m")` / `d.strftime("%d")`: two-digit zero-padded field
(months and days never exceed two digits). -/
def pad2 (n : Nat) : String :=
  if n < 10 then "0" ++ natToDecimalString n else natToDecimalString n

/-- The date serialization of models.py lines 859-862 (and matching.py
lines 193-196): `f"{d.year}{d.strftime('%m')}{d.strftime('%d')}"`.  The
year is rendered by plain `str`, with no zero padding. -/
def serializeSearchDate (d : PyDate) : String :=
  natToDecimalString d.year ++ pad2 d.month ++ pad2 d.day

/-- The digit value of one character, if it is a decimal digit. -/
def charDigit (c : Char) : Option Nat :=
  if 48 ≤ c.toNat ∧ c.toNat ≤ 57 then some (c.toNat - 48) else none

/-- Python `int(s)` on a slice of digit characters: the decimal value, or
an error (`none`) when the slice is empty or holds a non-digit. -/
def sliceToNat (l : List Char) : Option Nat :=
  if l.isEmpty then none
  else
    l.foldl
      (fun acc c =>
        match acc, charDigit c with
        | some a, some d => some (a * 10 + d)
        | _, _ => none)
      (some 0)

/-- `Document._parse_date_range_start` (models.py lines 834-840):
`int(s[:4])`, `int(s[4:6])`, `int(s[-2:])` on the character content;
`int()` of a malformed slice raises, modelled as `none`. -/
def parseDateRangeStart (doc_date : String) : Option PyDate :=
  let cs := doc_date.data
  match sliceToNat (cs.take 4), sliceToNat ((cs.drop 4).take 2),
      sliceToNat (cs.drop (cs.length - 2)) with
  | some y, some m, some d => some (PyDate.mk y m d)
  | _, _, _ => none

/-- A value supplied for `start_date`/`end_date`: an 8-character string, a
`datetime.date`, or anything else. -/
inductive DateSearchValue where
  | str (s : String)
  | pydate (d : PyDate)
  | other
deriving DecidableEq, Repr

/-- The formatting/validation pass run per date field (models.py lines
856-872): a `date` is serialized, a string is kept only if it has exactly
8 characters, anything else raises `MalformedDateSearch`. -/
def formatDateField (v : DateSearchValue) : Except PyError String :=
  match v with
  | .pydate d => .ok (serializeSearchDate d)
  | .str s => if s.length = 8 then .ok s else .error .malformedDate
  | .other => .error .malformedDate

/-- The external date inputs of the date-search processing: `date.today()`
and the `begin` value of `api.get_date_range()`. -/
structure DateEnv where
  today : PyDate
  dateRangeBegin : String
deriving Repr

/-- The per-field loop of `_process_date_searches`: `start_date` is
formatted first, then `end_date`; the first failure propagates. -/
def formatDatePair (s e : DateSearchValue) : Except PyError (String × String) :=
  match formatDateField s with
  | .error err => .error err
  | .ok s' =>
    match formatDateField e with
    | .error err => .error err
    | .ok e' => .ok (s', e')

/-- `Document._process_date_searches` (models.py lines 842-875) restricted
to the two date keys it reads and writes.  Returns the formatted
`(start_date, end_date)` pair and the number of network calls made
(`api.get_date_range()` is called exactly when `end_date` is supplied
without `start_date`). -/
def documentProcessDateSearches (start? end? : Option DateSearchValue)
    (env : DateEnv) : (Except PyError (String × String)) × Nat :=
  match start?, end? with
  | some s, none => (formatDatePair s (.pydate env.today), 0)
  | none, some e =>
    (match parseDateRangeStart env.dateRangeBegin with
     | some d0 => formatDatePair (.pydate d0) e
     | none => .error .valueError, 1)
  | some s, some e => (formatDatePair s e, 0)
  | none, none => (.error .keyError, 0)

/-! ### Query dictionaries (`ResourceMatcher.query`, matching.py)

The matcher's `self.query` is a Python dict from filter names to values.
It is modelled as an association list in insertion order; assignment to a
fresh key appends, assignment to an existing key updates in place, and
`pop` removes the key. -/

/-- An element of a list-valued filter (a related-entity list): a
`models.Language` instance, another `Resource` instance, a raw string, or
anything else. -/
inductive PyListItem where
  | langEnt (id : String)
  | resEnt (id : String)
  | strItem (s : String)
  | otherItem
deriving DecidableEq, Repr

/-- A value in the matcher's query dict. -/
inductive QVal where
  | str (s : String)
  | num (n : Nat)
  | pydate (d : PyDate)
  | ents (l : List PyListItem)
  | ids (l : List String)
  | pyNone
deriving DecidableEq, Repr

/-- The matcher's query dict. -/
abbrev Query := List (String × QVal)

/-- Keys of a query dict. -/
def queryKeys (q : Query) : List String := q.map Prod.fst

/-- `q.get(k)` / `q[k]`. -/
def queryGet : Query → String → Option QVal
  | [], _ => none
  | (k, v) :: q, f => if k = f then some v else queryGet q f

/-- In-place update of an existing key (all occurrences, of which genuine
dicts have exactly one). -/
def queryUpdate : Query → String → QVal → Query
  | [], _, _ => []
  | (k', v') :: q, k, v =>
    if k' = k then (k, v) :: queryUpdate q k v else (k', v') :: queryUpdate q k v

/-- `q[k] = v`: update if the key exists, otherwise append (Python dicts
preserve insertion order). -/
def queryAssign (q : Query) (k : String) (v : QVal) : Query :=
  if k ∈ queryKeys q then queryUpdate q k v else q ++ [(k, v)]

/-- `q.pop(k)` for a present key: the remaining dict. -/
def queryDrop (q : Query) (k : String) : Query :=
  q.filter (fun p => ¬ p.1 = k)

/-- Python truthiness of a query value (`if self.query.get("id")`,
`if kwargs.get("name")`). -/
def qvalTruthy : QVal → Bool
  | .str s => !s.isEmpty
  | .num n => n != 0
  | .pydate _ => true
  | .ents l => !l.isEmpty
  | .ids l => !l.isEmpty
  | .pyNone => false

/-! ### Search transport (the `api` collaborators of matching.py)

`api.search`, `api.get` and `api.get_date_range` are the external
transport; they are modelled as oracles.  Within one matcher the query is
fixed except for the `page` parameter, so the search oracle is keyed by
page: `searchFirst` answers the initial request (no `page` key) and
`searchPage p` answers the request carrying `page=p`. -/

/-- The `pagination` member of a search response envelope. -/
structure Pagination where
  page : Nat
  totalPages : Nat
  totalItems : Nat
deriving DecidableEq, Repr

/-- A search response envelope `{list: [...], pagination: {...}}`;
single-page-only endpoints return no `pagination` key. -/
structure SearchResponse (α : Type) where
  list : List α
  pagination : Option Pagination
deriving DecidableEq, Repr

/-- The transport oracle together with the date environment. -/
structure MatcherEnv (α : Type) where
  searchFirst : SearchResponse α
  searchPage : Nat → SearchResponse α
  getById : α
  dateEnv : DateEnv

/-! ### Field schemas (`__dataclass_fields__` of each model class) -/

/-- The `__dataclass_fields__` keys of each concrete model class of
models.py, in declaration order (the inherited `id` first). -/
def kindFields : Kind → List String
  | .subject => ["id", "name", "value", "uri", "endpoint"]
  | .language => ["id", "name"]
  | .transcript =>
    ["id", "filename", "content_type", "extension", "asset_id",
     "source_created_at", "source_updated_at", "url", "html", "pdf", "raw"]
  | .translation =>
    ["id", "filename", "content_type", "extension", "asset_id",
     "source_created_at", "source_updated_at", "url", "language", "html",
     "pdf", "raw"]
  | .mediaFile =>
    ["id", "filename", "content_type", "extension", "asset_id",
     "source_created_at", "source_updated_at", "path", "raw", "pdf"]
  | .contributor => ["id", "name", "value", "uri", "endpoint"]
  | .donor => ["id", "name", "endpoint"]
  | .coverage => ["id", "name", "uri", "value", "parent", "children", "endpoint"]
  | .collection =>
    ["id", "name", "slug", "uri", "parent", "model", "value", "description",
     "short_description", "main_src", "thumb_src", "no_of_documents",
     "is_inactive", "source_created_at", "source_updated_at",
     "first_published_at", "endpoint"]
  | .repository => ["id", "name", "uri", "value", "endpoint"]
  | .publisher => ["id", "name", "value", "endpoint"]
  | .docType => ["id", "name"]
  | .right => ["id", "name", "rights"]
  | .classification => ["id", "name"]
  | .document =>
    ["id", "uri", "title", "description", "doc_date", "frontend_doc_date",
     "slug", "source_created_at", "source_updated_at", "first_published_at",
     "source", "type", "rights", "pdf_generated_at", "date_range_start",
     "sort_string_by_coverage", "main_src", "model", "donors", "subjects",
     "transcripts", "translations", "media_files", "languages",
     "contributors", "creators", "original_coverages", "collections",
     "attachments", "links", "repositories", "publishers",
     "classifications", "endpoint"]
  | .theme =>
    ["id", "slug", "title", "value", "description", "main_src", "uri",
     "featured_resources", "has_map", "has_timeline",
     "featured_collections", "dates_with_events", "endpoint"]

/-- The kinds whose result count is taken from the returned list's length
(matching.py lines 67-73). -/
def singlePageKinds : List Kind := [.subject, .repository, .contributor, .coverage]

/-! ### Related-model search processing
(`ResourceMatcher._process_related_model_searches`, matching.py lines
92-137; `Document._process_related_model_searches`, models.py lines
877-923 — the two functions are textually identical, so one embedding
serves both) -/

/-- The plural-to-singular renames of the related-model filters. -/
def multiTerms : List (String × String) :=
  [("collections", "collection"), ("publishers", "publisher"),
   ("repositories", "repository"), ("original_coverages", "coverage"),
   ("subjects", "subject"), ("contributors", "contributor"),
   ("donors", "donor"), ("languages", "language"),
   ("translations", "translation"), ("themes", "theme")]

/-- Rename each plural filter key to its singular wire form:
`query[value] = query.pop(key)`. -/
def renameMultiTerms (q : Query) : Query :=
  multiTerms.foldl
    (fun q kv =>
      match queryGet q kv.1 with
      | some v => queryAssign (queryDrop q kv.1) kv.2 v
      | none => q)
    q

/-- `[str(item.id) for item in value]`: replace a list of related entities
by the list of their id strings; items without an `id` attribute raise. -/
def extractIds (v : QVal) : Except PyError QVal :=
  match v with
  | .ents l =>
    (l.mapM (fun it =>
      match it with
      | PyListItem.langEnt i => (Except.ok i : Except PyError String)
      | PyListItem.resEnt i => Except.ok i
      | _ => Except.error PyError.typeError)).map QVal.ids
  | _ => .error .typeError

/-- For every singular term present in the query, replace the entity list
by its id list. -/
def processTermIds (q : Query) : Except PyError Query :=
  multiTerms.foldlM
    (fun q kv =>
      match queryGet q kv.2 with
      | some v => (extractIds v).map (fun v' => queryUpdate q kv.2 v')
      | none => Except.ok q)
    q

/-- Special handling for `language`, `translation`, `theme`: they accept a
single value, so a longer list is an invalid-search-field error and the
singleton is unwrapped (`query[term] = query[term][0]`). -/
def unwrapSingletons (q : Query) : Except PyError Query :=
  ["language", "translation", "theme"].foldlM
    (fun q term =>
      match queryGet q term with
      | some (.ids l) =>
        if l.length > 1 then Except.error PyError.invalidSearchField
        else
          match l with
          | [] => Except.error PyError.indexError
          | x :: _ => Except.ok (queryUpdate q term (.str x))
      | some _ => Except.error PyError.typeError
      | none => Except.ok q)
    q

/-- The whole related-model processing pass. -/
def processRelatedModelSearches (q : Query) : Except PyError Query :=
  match processTermIds (renameMultiTerms q) with
  | .error e => .error e
  | .ok q' => unwrapSingletons q'

/-! ### The matcher's date-search entry point
(`ResourceMatcher._process_date_searches`, matching.py lines 170-210: the
models.py logic guarded by a Document-model check that raises before any
network call) -/

/-- `ResourceMatcher._process_date_searches`: rejects non-Document models
first, then behaves as `Document._process_date_searches` and writes the
two formatted strings back into the query. -/
def matcherProcessDateSearches (kind : Kind) (q : Query) (env : DateEnv) :
    (Except PyError Query) × Nat :=
  if kind = Kind.document then
    let toDsv : QVal → DateSearchValue := fun v =>
      match v with
      | .str s => DateSearchValue.str s
      | .pydate d => DateSearchValue.pydate d
      | _ => DateSearchValue.other
    let (res, n) := documentProcessDateSearches
      ((queryGet q "start_date").map toDsv) ((queryGet q "end_date").map toDsv) env
    (res.map (fun p =>
      queryAssign (queryAssign q "start_date" (.str p.1)) "end_date" (.str p.2)), n)
  else (.error .invalidSearchField, 0)

/-! ### The lazy result sequence (`ResourceMatcher.list`)

`self.list` is either a generator over the already-received first page
(`(self.model(**item) for item in response["list"])`) or the pagination
generator `_get_all_search_results` (matching.py lines 155-168).  A
generator is consumed destructively; its state is modelled explicitly.
The `while` loop is embedded with fuel; `fuelOut` never occurs when the
fuel exceeds the page count. -/

/-- The state of `self.list`. -/
inductive MatcherSeq (α β : Type) where
  | fromList (items : List β)
  | genUnstarted (resp : SearchResponse α)
  | genRunning (buffer : List β) (resp : SearchResponse α) (page : Nat)
deriving DecidableEq, Repr

/-- A matcher as returned by `ResourceMatcher.__init__`: the eager `count`
and the lazy `list`. -/
structure Matcher (α β : Type) where
  count : Nat
  seq : MatcherSeq α β
deriving DecidableEq, Repr

/-- Full drain of the pagination loop of `_get_all_search_results` from
page `page`, the current response being `resp`: while
`page <= resp["pagination"]["totalPages"]`, fetch `page`, emit its parsed
items, and continue with the fetched response. -/
def pageDrain (env : MatcherEnv α) (parse : α → β) :
    SearchResponse α → Nat → Nat → Except PyError (List β)
  | _, _, 0 => .error .fuelOut
  | resp, page, fuel + 1 =>
    match resp.pagination with
    | none => .error .keyError
    | some pg =>
      if page ≤ pg.totalPages then
        let r := env.searchPage page
        match pageDrain env parse r (page + 1) fuel with
        | .error e => .error e
        | .ok rest => .ok (r.list.map parse ++ rest)
      else .ok []

/-- Full drain (`list(...)`) of the result sequence. -/
def drainSeq (env : MatcherEnv α) (parse : α → β) (fuel : Nat) :
    MatcherSeq α β → Except PyError (List β)
  | .fromList items => .ok items
  | .genUnstarted resp =>
    match resp.pagination with
    | none => .error .keyError
    | some pg => pageDrain env parse resp pg.page fuel
  | .genRunning buf resp page =>
    match pageDrain env parse resp page fuel with
    | .error e => .error e
    | .ok rest => .ok (buf ++ rest)

/-- One resumption of the pagination generator with an empty buffer: loop
until a fetched page yields an item or the pages are exhausted.  Returns
the item, the successor state, and the number of `api.search` calls
made. -/
def pageGenStep (env : MatcherEnv α) (parse : α → β) :
    SearchResponse α → Nat → Nat →
      Except PyError (Option (β × MatcherSeq α β) × Nat)
  | _, _, 0 => .error .fuelOut
  | resp, page, fuel + 1 =>
    match resp.pagination with
    | none => .error .keyError
    | some pg =>
      if page ≤ pg.totalPages then
        let r := env.searchPage page
        match r.list.map parse with
        | [] =>
          match pageGenStep env parse r (page + 1) fuel with
          | .error e => .error e
          | .ok (o, n) => .ok (o, n + 1)
        | x :: rest => .ok (some (x, .genRunning rest r (page + 1)), 1)
      else .ok (none, 0)

/-- `next(self.list)`: one step of the result sequence.  `.ok none` is
`StopIteration`; the `Nat` counts `api.search` calls made by the step. -/
def seqNext (env : MatcherEnv α) (parse : α → β) (fuel : Nat) :
    MatcherSeq α β → Except PyError (Option (β × MatcherSeq α β) × Nat)
  | .fromList [] => .ok (none, 0)
  | .fromList (x :: r) => .ok (some (x, .fromList r), 0)
  | .genUnstarted resp =>
    match resp.pagination with
    | none => .error .keyError
    | some pg => pageGenStep env parse resp pg.page fuel
  | .genRunning [] resp page => pageGenStep env parse resp page fuel
  | .genRunning (x :: r) resp page => .ok (some (x, .genRunning r resp page), 0)

/-- `ResourceMatcher.first` (matching.py lines 212-214):
`return next(self.list)`.  A `StopIteration` of the exhausted generator
propagates. -/
def matcherFirst (env : MatcherEnv α) (parse : α → β) (fuel : Nat)
    (m : Matcher α β) : Except PyError ((β × Matcher α β) × Nat) :=
  match seqNext env parse fuel m.seq with
  | .error e => .error e
  | .ok (none, _) => .error .stopIteration
  | .ok (some (x, s'), n) => .ok ((x, { m with seq := s' }), n)

/-- `ResourceMatcher.all` (matching.py lines 216-218) followed by a full
drain by the caller: `all()` returns `self.list` itself, so draining what
it returns leaves the matcher's own sequence exhausted. -/
def matcherAllDrain (env : MatcherEnv α) (parse : α → β) (fuel : Nat)
    (m : Matcher α β) : Except PyError (List β) × Matcher α β :=
  (drainSeq env parse fuel m.seq, { m with seq := .fromList [] })

/-! ### `ResourceMatcher.__init__` (matching.py lines 20-87) -/

/-- The search branch of `__init__` (lines 60-87): set `itemsPerPage`,
issue the first search, derive `count` (list length for the single-page
kinds, `pagination.totalItems` otherwise), and build the result
sequence. -/
def matcherSearchBranch (kind : Kind) (items_per_page : Nat)
    (env : MatcherEnv α) (parse : α → β) : Except PyError (Matcher α β) :=
  let resp := env.searchFirst
  match
    (if kind ∈ singlePageKinds then Except.ok resp.list.length
     else
       match resp.pagination with
       | some pg => Except.ok pg.totalItems
       | none => Except.error PyError.keyError : Except PyError Nat) with
  | .error e => .error e
  | .ok count =>
    if count ≤ items_per_page then
      .ok { count := count, seq := .fromList (resp.list.map parse) }
    else if kind = Kind.subject then
      .ok { count := count, seq := .fromList (resp.list.map parse) }
    else
      .ok { count := count, seq := .genUnstarted resp }

/-- `ResourceMatcher.__init__`: date-search processing (before anything
else), filter validation, related-model processing, then either the
record-by-id short circuit or the first search request.  Returns the
matcher and the number of network calls made. -/
def resourceMatcherInit (kind : Kind) (q : Query) (items_per_page : Nat)
    (env : MatcherEnv α) (parse : α → β) :
    (Except PyError (Matcher α β)) × Nat :=
  let dateStep : (Except PyError Query) × Nat :=
    if "start_date" ∈ queryKeys q ∨ "end_date" ∈ queryKeys q then
      matcherProcessDateSearches kind q env.dateEnv
    else (.ok q, 0)
  match dateStep with
  | (.error e, n) => (.error e, n)
  | (.ok q, n) =>
    let allowed := kindFields kind ++
      (if kind = Kind.document then ["start_date", "end_date", "themes"] else [])
    if ¬ (q.all (fun kv => kv.1 ∈ allowed)) then (.error .invalidSearchField, n)
    else
      match processRelatedModelSearches q with
      | .error e => (.error e, n)
      | .ok q =>
        match queryGet q "id" with
        | some v =>
          if qvalTruthy v then
            (.ok { count := 1, seq := .fromList [parse env.getById] }, n + 1)
          else (matcherSearchBranch kind items_per_page env parse, n + 1)
        | none => (matcherSearchBranch kind items_per_page env parse, n + 1)

/-! ### `match` (models.py `MatchingMixin.match`, lines 52-76, and
`Document.match`, lines 648-753) -/

/-- The `term` preparation of `MatchingMixin.match` (lines 65-74): join
truthy `name` and `value` into `term`, or promote whichever one is truthy.
Joining a non-string raises. -/
def buildTermQuery (q : Query) : Except PyError Query :=
  let getTruthy : String → Option QVal := fun k =>
    match queryGet q k with
    | some v => if qvalTruthy v then some v else none
    | none => none
  match getTruthy "name", getTruthy "value" with
  | some a, some b =>
    match a, b with
    | .str sa, .str sb =>
      .ok (queryAssign (queryDrop (queryDrop q "name") "value") "term"
        (.str (sa ++ " " ++ sb)))
    | _, _ => .error .typeError
  | some a, none => .ok (queryAssign (queryDrop q "name") "term" a)
  | none, some b => .ok (queryAssign (queryDrop q "value") "term" b)
  | none, none => .ok q

/-- `MatchingMixin.match`: validate the filter keys against the model's
dataclass fields (before anything else), prepare `term`, then construct
the `ResourceMatcher`.  Returns the result and the network-call count. -/
def matchingMixinMatch (kind : Kind) (q : Query) (items_per_page : Nat)
    (env : MatcherEnv α) (parse : α → β) :
    (Except PyError (Matcher α β)) × Nat :=
  if ¬ (q.all (fun kv => kv.1 ∈ kindFields kind)) then
    (.error .invalidSearchField, 0)
  else
    match buildTermQuery q with
    | .error e => (.error e, 0)
    | .ok q' => resourceMatcherInit kind q' items_per_page env parse

/-- The allowed filter keys of `Document.match` (models.py lines
700-706): the dataclass fields plus the date pseudo-fields and
`themes`. -/
def documentAllowedFields : List String :=
  kindFields Kind.document ++ ["start_date", "end_date", "themes"]

/-- `Document._process_language_search` (models.py lines 925-953).  The
`return` statement sits inside the `for` loop, so only the first element
is examined and kept; an empty list returns `None`, which the caller then
crashes on (`kwargs.keys()` of `None`). -/
def documentProcessLanguageSearch (q : Query) : Except PyError Query :=
  match queryGet q "languages" with
  | some (.ents l) =>
    match l with
    | [] => .error .typeError
    | x :: _ =>
      match x with
      | .langEnt i => .ok (queryUpdate q "languages" (.ents [.langEnt i]))
      | .strItem s =>
        if s.length = 3 then .ok (queryUpdate q "languages" (.ents [.langEnt s]))
        else .error .malformedLanguage
      | _ => .error .malformedLanguage
  | some _ => .error .typeError
  | none => .ok q

/-- The `q` full-text concatenation of `Document.match` (lines 740-745):
pop `name`, `title`, `description`, `slug`, `q` in that order, join the
popped strings with spaces, and store the result under `q` (always, even
when empty). -/
def buildQParam (q : Query) : Except PyError Query :=
  match
    (["name", "title", "description", "slug", "q"].foldlM
      (fun (acc : Query × List String) f =>
        match queryGet acc.1 f with
        | some (.str s) => Except.ok (queryDrop acc.1 f, acc.2 ++ [s])
        | some .pyNone => Except.ok acc
        | some _ => Except.error PyError.typeError
        | none => Except.ok acc)
      (q, [])) with
  | .error e => .error e
  | .ok (q', kws) => .ok (queryAssign q' "q" (.str (String.intercalate " " kws)))

/-- The array-parameter renames of `Document.match` (lines 747-750):
`donor`, `subject`, `contributor`, `coverage`, `collection` become
`...[]`-suffixed keys. -/
def renameArrayParams (q : Query) : Query :=
  ["donor", "subject", "contributor", "coverage", "collection"].foldl
    (fun q f =>
      match queryGet q f with
      | some v => queryAssign (queryDrop q f) (f ++ "[]") v
      | none => q)
    q

/-- `Document.match`: force `model="Record"`, validate keys, process
dates, languages and related models, build `q`, rename the array
parameters, and construct the `ResourceMatcher`. -/
def documentMatch (q : Query) (items_per_page : Nat) (env : MatcherEnv α)
    (parse : α → β) : (Except PyError (Matcher α β)) × Nat :=
  let q := queryAssign q "model" (.str "Record")
  if ¬ (q.all (fun kv => kv.1 ∈ documentAllowedFields)) then
    (.error .invalidSearchField, 0)
  else
    let dateStep : (Except PyError Query) × Nat :=
      if "start_date" ∈ queryKeys q ∨ "end_date" ∈ queryKeys q then
        let toDsv : QVal → DateSearchValue := fun v =>
          match v with
          | .str s => DateSearchValue.str s
          | .pydate d => DateSearchValue.pydate d
          | _ => DateSearchValue.other
        let (res, n) := documentProcessDateSearches
          ((queryGet q "start_date").map toDsv) ((queryGet q "end_date").map toDsv)
          env.dateEnv
        (res.map (fun p =>
          queryAssign (queryAssign q "start_date" (.str p.1)) "end_date"
            (.str p.2)), n)
      else (.ok q, 0)
    match dateStep with
    | (.error e, n) => (.error e, n)
    | (.ok q, n) =>
      match
        (if "languages" ∈ queryKeys q then documentProcessLanguageSearch q
         else .ok q) with
      | .error e => (.error e, n)
      | .ok q =>
        match
          (if (multiTerms.map Prod.fst).any (fun k => k ∈ queryKeys q) then
            processRelatedModelSearches q
          else .ok q) with
        | .error e => (.error e, n)
        | .ok q =>
          match buildQParam q with
          | .error e => (.error e, n)
          | .ok q =>
            let q := renameArrayParams q
            let (r, n2) := resourceMatcherInit Kind.document q items_per_page env parse
            (r, n + n2)

/-! ### Child-record parsing on construction
(`Coverage.__post_init__`, models.py lines 365-387, and
`Document._parse_child_records`, models.py lines 784-832) -/

/-- A raw nested-coverage JSON object, as embedded under `parent` or
`children` (its own `parent`/`children` entries are absent, so the nested
`Coverage(**child)` construction leaves them at the sentinel default). -/
structure CovStub where
  id : String
  name : String
  uri : String
deriving DecidableEq, Repr

/-- The value supplied for `Coverage.parent` at construction. -/
inductive CoverageParentIn where
  | sentinel
  | pyNone
  | listIn (l : List CovStub)
  | dictIn (s : CovStub)
  | covIn (s : CovStub)
deriving DecidableEq, Repr

/-- One element of a supplied `children` list: a raw dict or an
already-parsed `Coverage`. -/
inductive CovChildElem where
  | dictElem (s : CovStub)
  | covElem (s : CovStub)
deriving DecidableEq, Repr

/-- The value supplied for `Coverage.children` at construction. -/
inductive CoverageChildrenIn where
  | sentinel
  | listIn (l : List CovChildElem)
deriving DecidableEq, Repr

/-- The stored `parent` field after `__post_init__`. -/
inductive CoverageParentV where
  | sentinel
  | pyNone
  | cov (s : CovStub)
deriving DecidableEq, Repr

/-- The stored `children` field after `__post_init__`. -/
inductive CoverageChildrenV where
  | sentinel
  | covs (l : List CovStub)
deriving DecidableEq, Repr

/-- A constructed `Coverage` instance. -/
structure CoverageRec where
  id : String
  name : String
  uri : String
  value : FieldValue
  parent : CoverageParentV
  children : CoverageChildrenV
deriving DecidableEq, Repr

/-- The stub carried by a `children` element, whichever form it has. -/
def covChildStub : CovChildElem → CovStub
  | .dictElem s => s
  | .covElem s => s

/-- `Coverage(...)` construction including `__post_init__` (models.py
lines 365-387): a list-valued `parent` is normalized to `None`; a dict
`parent` is parsed; then, unless `children` is the sentinel, the guard
evaluates `isinstance(self.children[0], Coverage)`, which indexes the
list before checking its length — an empty list raises `IndexError`. -/
def coverageInit (id name uri : String) (value : FieldValue)
    (parent : CoverageParentIn) (children : CoverageChildrenIn) :
    Except PyError CoverageRec :=
  let parent1 : CoverageParentIn :=
    match parent with
    | .listIn _ => .pyNone
    | p => p
  let parent2 : CoverageParentV :=
    match parent1 with
    | .covIn s => .cov s
    | .pyNone => .pyNone
    | .sentinel => .sentinel
    | .dictIn s => .cov s
    | .listIn _ => .pyNone
  match children with
  | .sentinel => .ok (CoverageRec.mk id name uri value parent2 .sentinel)
  | .listIn [] => .error .indexError
  | .listIn (x :: xs) =>
    match x with
    | .covElem _ =>
      .ok (CoverageRec.mk id name uri value parent2
        (.covs ((x :: xs).map covChildStub)))
    | .dictElem _ =>
      match (x :: xs).mapM (fun e =>
        match e with
        | CovChildElem.dictElem s => (Except.ok s : Except PyError CovStub)
        | CovChildElem.covElem _ => Except.error PyError.typeError) with
      | .error e => .error e
      | .ok stubs => .ok (CoverageRec.mk id name uri value parent2 (.covs stubs))

/-- A raw nested child object of a Document relation field, represented
opaquely by its id. -/
structure ChildStub where
  id : String
deriving DecidableEq, Repr

/-- One element of a list supplied for a Document relation field. -/
inductive DocChildElem where
  | dictElem (s : ChildStub)
  | entElem (s : ChildStub)
deriving DecidableEq, Repr

/-- The value a Document relation field holds when
`_parse_child_records` examines it. -/
inductive DocChildIn where
  | sentinel
  | dictIn (s : ChildStub)
  | rightVal
  | listIn (l : List DocChildElem)
deriving DecidableEq, Repr

/-- The value the field holds afterwards. -/
inductive DocChildOut where
  | sentinel
  | singleEnt (s : ChildStub)
  | rightVal
  | parsedList (l : List ChildStub)
  | keptList (l : List DocChildElem)
deriving DecidableEq, Repr

/-- `Document._parse_child_records` (models.py lines 784-832), one field:
the sentinel is skipped; a dict is parsed into a single entity; a parsed
`Right` is skipped; an empty list is left unchanged by the explicit
`len(...) == 0` branch; a non-empty list whose first element is a dict is
parsed element-wise; any other list is kept as-is. -/
def documentParseChildField (v : DocChildIn) : Except PyError DocChildOut :=
  match v with
  | .sentinel => .ok .sentinel
  | .dictIn s => .ok (.singleEnt s)
  | .rightVal => .ok .rightVal
  | .listIn [] => .ok (.keptList [])
  | .listIn (x :: xs) =>
    match x with
    | .entElem _ => .ok (.keptList (x :: xs))
    | .dictElem _ =>
      match (x :: xs).mapM (fun e =>
        match e with
        | DocChildElem.dictElem s => (Except.ok s : Except PyError ChildStub)
        | DocChildElem.entElem _ => Except.error PyError.typeError) with
      | .error e => .error e
      | .ok stubs => .ok (.parsedList stubs)

/-! ### Concrete transport fixtures for the closed theorems -/

/-- A single-page search response of two items with pagination metadata,
as a keyword search returning fewer hits than the page size produces. -/
def envTwoItemsPaginated : MatcherEnv Nat :=
  { searchFirst := { list := [10, 20], pagination := some (Pagination.mk 1 1 2) }
  , searchPage := fun _ => { list := [], pagination := none }
  , getById := 99
  , dateEnv := { today := PyDate.mk 2026 10 12, dateRangeBegin := "19890414" } }

/-- A single-page-kind search response: a list of two items and no
`pagination` key, as the `repository` endpoint returns. -/
def envTwoItemsNoPagination : MatcherEnv Nat :=
  { searchFirst := { list := [10, 20], pagination := none }
  , searchPage := fun _ => { list := [], pagination := none }
  , getById := 99
  , dateEnv := { today := PyDate.mk 2026 10 12, dateRangeBegin := "19890414" } }

/-- The multi-page scenario: `totalItems = 2`, `itemsPerPage = 1`, two
pages of one item each. -/
def envMultiPage : MatcherEnv Nat :=
  { searchFirst := { list := [7], pagination := some (Pagination.mk 1 2 2) }
  , searchPage := fun p =>
      if p = 1 then { list := [7], pagination := some (Pagination.mk 1 2 2) }
      else { list := [8], pagination := some (Pagination.mk 2 2 2) }
  , getById := 99
  , dateEnv := { today := PyDate.mk 2026 10 12, dateRangeBegin := "19890414" } }

lemma dictGet_none_of_not_mem (d : InstanceDict) (f : String)
    (h : f ∉ dictKeys d) : dictGet d f = none := by
  induction d with
  | nil => rfl
  | cons p rest ih =>
    obtain ⟨k, v⟩ := p
    simp only [dictKeys, List.map_cons, List.mem_cons, not_or] at h
    have hk : ¬ k = f := fun hh => h.1 hh.symm
    simp only [dictGet, if_neg hk]
    exact ih (by simp only [dictKeys]; exact h.2)

lemma dictGet_dictSet (d : InstanceDict) (k f : String) (v : FieldValue) :
    dictGet (dictSet d k v) f =
      if f = k ∧ k ∈ dictKeys d then some v else dictGet d f := by
  induction d with
  | nil => simp [dictGet, dictSet, dictKeys]
  | cons p rest ih =>
    obtain ⟨k', v'⟩ := p
    by_cases hk : k' = k
    · subst hk
      by_cases hf : k' = f
      · subst hf
        simp [dictGet, dictSet, dictKeys]
      · have hfk : ¬ f = k' := fun h => hf h.symm
        simp [dictGet, dictSet, dictKeys, hf, hfk, ih]
    · by_cases hf : k' = f
      · have hfk : ¬ f = k := fun h => hk (hf.trans h)
        simp [dictGet, dictSet, dictKeys, hk, hf, hfk]
      · have hkk : ¬ k = k' := fun h => hk h.symm
        simp only [dictGet, dictSet, dictKeys, if_neg hk, if_neg hf, ih]
        by_cases hc : f = k
        · subst hc
          by_cases hm : f ∈ List.map Prod.fst rest <;>
            simp [dictKeys, hm, hkk, List.mem_cons]
        · simp [hc]

lemma dictGet_mergeStep_ne (acc : InstanceDict) (kv : String × FieldValue)
    (f : String) (hf : f ≠ kv.1) :
    dictGet (mergeStep acc kv) f = dictGet acc f := by
  unfold mergeStep
  by_cases h : dictGet acc kv.1 = some .sentinel
  · rw [if_pos h, dictGet_dictSet]
    rw [if_neg (fun hc => hf hc.1)]
  · rw [if_neg h]

lemma dictGet_foldl_not_mem (l : List (String × FieldValue)) (acc : InstanceDict)
    (f : String) (hf : f ∉ l.map Prod.fst) :
    dictGet (l.foldl mergeStep acc) f = dictGet acc f := by
  induction l generalizing acc with
  | nil => rfl
  | cons kv rest ih =>
    simp only [List.map, List.mem_cons, not_or] at hf
    rw [List.foldl_cons, ih (mergeStep acc kv) hf.2,
        dictGet_mergeStep_ne acc kv f hf.1]

/-- The field-level law of the hydration merge: wherever both the snapshot
and the freshly fetched dict bind a field, the merged dict holds the fresh
value unless the fresh value is the sentinel, in which case it holds the
snapshot value. -/
lemma dictGet_hydrateMergeFields (pre post : InstanceDict) (f : String)
    (hnodup : (dictKeys pre).Nodup)
    (u w : FieldValue)
    (hu : dictGet pre f = some u) (hw : dictGet post f = some w) :
    dictGet (hydrateMergeFields pre post) f =
      some (if w = .sentinel then u else w) := by
  induction pre generalizing post with
  | nil => simp [dictGet] at hu
  | cons kv rest ih =>
    obtain ⟨k, v⟩ := kv
    simp only [dictKeys, List.map, List.nodup_cons] at hnodup
    unfold hydrateMergeFields
    rw [List.foldl_cons]
    by_cases hk : k = f
    · subst hk
      rw [show dictGet ((k, v) :: rest) k = some v from by simp [dictGet]] at hu
      injection hu with hu; subst hu
      have hrest : k ∉ (rest.map Prod.fst) := by
        simpa [dictKeys] using hnodup.1
      rw [dictGet_foldl_not_mem rest _ k hrest]
      unfold mergeStep
      simp only
      by_cases hs : dictGet post k = some .sentinel
      · rw [if_pos hs, dictGet_dictSet]
        rw [hw] at hs
        injection hs with hs
        have hkmem : k ∈ dictKeys post := by
          by_contra hmem
          rw [dictGet_none_of_not_mem post k hmem] at hw
          cases hw
        rw [if_pos ⟨rfl, hkmem⟩, ← hs]
        simp
      · rw [if_neg hs, hw]
        have hws : ¬ (w = .sentinel) := by
          intro h; rw [hw] at hs; exact hs (by rw [h])
        rw [if_neg hws]
    · rw [show dictGet ((k, v) :: rest) f = dictGet rest f from by
        simp [dictGet, hk]] at hu
      have hres := ih (mergeStep post (k, v)) hnodup.2 hu
        (by rw [dictGet_mergeStep_ne post (k, v) f (fun h => hk h.symm)]; exact hw)
      unfold hydrateMergeFields at hres
      exact hres

/-! ### Decimal-rendering lemmas -/

lemma natDecimalDigitsAux_fuel_irrel :
    ∀ n f1 f2, n < f1 → n < f2 →
      natDecimalDigitsAux f1 n = natDecimalDigitsAux f2 n := by
  intro n
  induction n using Nat.strong_induction_on with
  | _ n ih =>
    intro f1 f2 h1 h2
    cases f1 with
    | zero => omega
    | succ a =>
      cases f2 with
      | zero => omega
      | succ b =>
        simp only [natDecimalDigitsAux]
        by_cases h : n < 10
        · simp [h]
        · simp only [if_neg h]
          have hd : n / 10 < n := by omega
          rw [ih (n / 10) hd a b (by omega) (by omega)]

lemma natDecimalDigits_of_lt {n : Nat} (h : n < 10) : natDecimalDigits n = [n] := by
  simp [natDecimalDigits, natDecimalDigitsAux, h]

lemma natDecimalDigits_step {n : Nat} (h : 10 ≤ n) :
    natDecimalDigits n = natDecimalDigits (n / 10) ++ [n % 10] := by
  have key : natDecimalDigitsAux (n + 1) n =
      natDecimalDigitsAux n (n / 10) ++ [n % 10] := by
    simp only [natDecimalDigitsAux, if_neg (by omega : ¬ n < 10)]
  unfold natDecimalDigits
  rw [key,
    natDecimalDigitsAux_fuel_irrel (n / 10) n (n / 10 + 1) (by omega) (by omega)]

lemma natDecimalDigits_length_one {n : Nat} (h : n < 10) :
    (natDecimalDigits n).length = 1 := by
  rw [natDecimalDigits_of_lt h]; rfl

lemma natDecimalDigits_length_two {n : Nat} (h1 : 10 ≤ n) (h2 : n ≤ 99) :
    (natDecimalDigits n).length = 2 := by
  rw [natDecimalDigits_step h1, List.length_append,
    natDecimalDigits_length_one (by omega : n / 10 < 10)]
  rfl

lemma natDecimalDigits_length_three {n : Nat} (h1 : 100 ≤ n) (h2 : n ≤ 999) :
    (natDecimalDigits n).length = 3 := by
  rw [natDecimalDigits_step (by omega), List.length_append,
    natDecimalDigits_length_two (by omega : 10 ≤ n / 10) (by omega : n / 10 ≤ 99)]
  rfl

lemma natDecimalDigits_length_four {n : Nat} (h1 : 1000 ≤ n) (h2 : n ≤ 9999) :
    (natDecimalDigits n).length = 4 := by
  rw [natDecimalDigits_step (by omega), List.length_append,
    natDecimalDigits_length_three (by omega : 100 ≤ n / 10) (by omega : n / 10 ≤ 999)]
  rfl

lemma natToDecimalString_length (n : Nat) :
    (natToDecimalString n).length = (natDecimalDigits n).length := by
  simp [natToDecimalString, String.length]

lemma pad2_length {n : Nat} (h : n ≤ 99) : (pad2 n).length = 2 := by
  unfold pad2
  by_cases h10 : n < 10
  · rw [if_pos h10, String.length_append, natToDecimalString_length,
      natDecimalDigits_length_one h10]
    rfl
  · rw [if_neg h10, natToDecimalString_length,
      natDecimalDigits_length_two (by omega) h]

lemma serializeSearchDate_length {y m d : Nat} (hy1 : 1000 ≤ y)
    (hy2 : y ≤ 9999) (hm : m ≤ 99) (hd : d ≤ 99) :
    (serializeSearchDate (PyDate.mk y m d)).length = 8 := by
  unfold serializeSearchDate
  rw [String.length_append, String.length_append, natToDecimalString_length,
    natDecimalDigits_length_four hy1 hy2, pad2_length hm, pad2_length hd]

/-! ### Claim C1 -/

/-- C1: hydrating an instance merges the freshly fetched representation
with the pre-fetch snapshot so that every field `f` bound by both holds
the fresh value when that value is not the sentinel and the snapshot value
otherwise; in particular the merge never replaces a populated field with
the sentinel. -/
theorem c1_hydration_merge_law (pre post : InstanceDict) (f : String)
    (hnodup : (dictKeys pre).Nodup) (u w : FieldValue)
    (hu : dictGet pre f = some u) (hw : dictGet post f = some w) :
    dictGet (hydrateMergeFields pre post) f =
      some (if w = FieldValue.sentinel then u else w) ∧
    (u ≠ FieldValue.sentinel →
      dictGet (hydrateMergeFields pre post) f ≠ some FieldValue.sentinel) := by
  have h := dictGet_hydrateMergeFields pre post f hnodup u w hu hw
  refine ⟨h, fun hus => ?_⟩
  rw [h]
  by_cases hws : w = FieldValue.sentinel
  · rw [if_pos hws]
    intro hc
    exact hus (by injection hc)
  · rw [if_neg hws]
    intro hc
    exact hws (by injection hc)

theorem c1_hydration_merge_law_witness :
    dictGet
      (hydrateMergeFields
        [("id", FieldValue.value "1"), ("name", FieldValue.value "n"),
         ("value", FieldValue.value "v"), ("uri", FieldValue.sentinel)]
        [("id", FieldValue.value "1"), ("name", FieldValue.value "n"),
         ("value", FieldValue.sentinel), ("uri", FieldValue.value "u")])
      "value" = some (FieldValue.value "v") ∧
    FieldValue.value "v" ≠ FieldValue.sentinel := by
  have h := c1_hydration_merge_law
    [("id", FieldValue.value "1"), ("name", FieldValue.value "n"),
     ("value", FieldValue.value "v"), ("uri", FieldValue.sentinel)]
    [("id", FieldValue.value "1"), ("name", FieldValue.value "n"),
     ("value", FieldValue.sentinel), ("uri", FieldValue.value "u")]
    "value" (by decide) (FieldValue.value "v") FieldValue.sentinel
    (by decide) (by decide)
  exact ⟨by simpa using h.1, by decide⟩

/-! ### Claim C2 -/

/-- C2: two instances of the same concrete kind with equal `id` are equal
regardless of every other field; instances of different concrete kinds are
never equal even with equal ids; no field beyond (kind, id) influences
equality, and none beyond `id` influences the hash. -/
theorem c2_equality_hash_by_kind_and_id (k k' : Kind) (i i' : String)
    (f g f2 g2 : InstanceDict) :
    pyEq (REntity.mk k i f) (REntity.mk k i g) = true ∧
    (k ≠ k' → pyEq (REntity.mk k i f) (REntity.mk k' i g) = false) ∧
    pyEq (REntity.mk k i f) (REntity.mk k' i' g) =
      pyEq (REntity.mk k i f2) (REntity.mk k' i' g2) ∧
    resourceHash (REntity.mk k i f) = resourceHash (REntity.mk k i g2) := by
  refine ⟨?_, fun hk => ?_, ?_, rfl⟩
  · simp [pyEq, resourceEqMethod]
  · have hk' : ¬ k' = k := fun h => hk h.symm
    simp [pyEq, resourceEqMethod, hk, hk']
  · by_cases hkk : k = k'
    · subst hkk
      simp [pyEq, resourceEqMethod]
    · have hkk' : ¬ k' = k := fun h => hkk h.symm
      simp [pyEq, resourceEqMethod, hkk, hkk']

theorem c2_equality_hash_by_kind_and_id_witness :
    pyEq (REntity.mk Kind.subject "1" [("name", FieldValue.value "a")])
      (REntity.mk Kind.subject "1" [("name", FieldValue.sentinel)]) = true ∧
    Kind.subject ≠ Kind.contributor ∧
    pyEq (REntity.mk Kind.subject "1" [])
      (REntity.mk Kind.contributor "1" []) = false := by
  have h := c2_equality_hash_by_kind_and_id Kind.subject Kind.contributor "1" "1"
    [("name", FieldValue.value "a")] [("name", FieldValue.sentinel)] [] []
  exact ⟨h.1, by decide, by
    have h2 := c2_equality_hash_by_kind_and_id Kind.subject Kind.contributor "1" "1"
      [] [] [] []
    exact h2.2.1 (by decide)⟩

/-! ### Claim C6 -/

/-- C6 counterexample: a supplied calendar date is not always serialized
to an 8-character string — the year is not zero-padded, so
`date(989, 4, 15)` serializes to the 7-character `"9890415"`. -/
theorem c6_date_serialization_counterexample :
    documentProcessDateSearches (some (DateSearchValue.pydate (PyDate.mk 989 4 15)))
      (some (DateSearchValue.str "19890415"))
      (DateEnv.mk (PyDate.mk 2026 10 12) "19890414") =
      (Except.ok ("9890415", "19890415"), 0) ∧
    ("9890415").length = 7 ∧ ¬ ("9890415").length = 8 := by
  refine ⟨by decide, by decide, by decide⟩

/-- C6 (amended): with exactly one of `start_date`/`end_date` supplied the
open end is filled (`end_date` from today's date, `start_date` from the
date-range endpoint, one network call); calendar dates are serialized as
unpadded year followed by two-digit month and day — 8 characters exactly
for four-digit years; a string of length other than 8, or a value that is
neither a string nor a date, raises the malformed-date error. -/
theorem c6_date_search_processing (env : DateEnv) (d d0 : PyDate)
    (s t : String) (v2 : DateSearchValue) (y m dd : Nat) :
    documentProcessDateSearches (some (DateSearchValue.pydate d)) none env =
      (Except.ok (serializeSearchDate d, serializeSearchDate env.today), 0) ∧
    (parseDateRangeStart env.dateRangeBegin = some d0 →
      formatDateField v2 = Except.ok t →
      documentProcessDateSearches none (some v2) env =
        (Except.ok (serializeSearchDate d0, t), 1)) ∧
    documentProcessDateSearches (some (DateSearchValue.str s))
        (some (DateSearchValue.str t)) env =
      ((if s.length = 8 then
          (if t.length = 8 then Except.ok (s, t)
           else Except.error PyError.malformedDate)
        else Except.error PyError.malformedDate), 0) ∧
    documentProcessDateSearches (some DateSearchValue.other) (some v2) env =
      (Except.error PyError.malformedDate, 0) ∧
    (1000 ≤ y → y ≤ 9999 → m ≤ 99 → dd ≤ 99 →
      (serializeSearchDate (PyDate.mk y m dd)).length = 8) := by
  refine ⟨?_, fun h1 h2 => ?_, ?_, rfl, fun hy1 hy2 hm hdd =>
    serializeSearchDate_length hy1 hy2 hm hdd⟩
  · simp [documentProcessDateSearches, formatDatePair, formatDateField]
  · simp only [documentProcessDateSearches, h1, formatDatePair]
    rw [show formatDateField (DateSearchValue.pydate d0) =
      Except.ok (serializeSearchDate d0) from rfl]
    rw [h2]
  · by_cases hs : s.length = 8 <;> by_cases ht : t.length = 8 <;>
      simp [documentProcessDateSearches, formatDatePair, formatDateField, hs, ht]

theorem c6_date_search_processing_witness :
    documentProcessDateSearches none
        (some (DateSearchValue.pydate (PyDate.mk 1989 4 15)))
        (DateEnv.mk (PyDate.mk 2026 10 12) "19890414") =
      (Except.ok ("19890414", "19890415"), 1) ∧
    (serializeSearchDate (PyDate.mk 1989 4 15)).length = 8 := by
  have h := c6_date_search_processing
    (DateEnv.mk (PyDate.mk 2026 10 12) "19890414")
    (PyDate.mk 1989 4 15) (PyDate.mk 1989 4 14) "x" "19890415"
    (DateSearchValue.pydate (PyDate.mk 1989 4 15)) 1989 4 15
  refine ⟨?_, h.2.2.2.2 (by decide) (by decide) (by decide) (by decide)⟩
  have h2 := h.2.1 (by decide) (by decide)
  simpa using h2

/-! ### Claim C7 -/

lemma mem_queryUpdate_of_ne {q : Query} {k k' : String} {v w : QVal}
    (hmem : (k, v) ∈ q) (hne : k ≠ k') : (k, v) ∈ queryUpdate q k' w := by
  induction q with
  | nil => cases hmem
  | cons p rest ih =>
    obtain ⟨a, b⟩ := p
    rcases List.mem_cons.mp hmem with h | h
    · injection h with h1 h2
      subst h1; subst h2
      simp only [queryUpdate, if_neg hne]
      exact List.mem_cons_self _ _
    · simp only [queryUpdate]
      by_cases ha : a = k'
      · rw [if_pos ha]
        exact List.mem_cons_of_mem _ (ih h)
      · rw [if_neg ha]
        exact List.mem_cons_of_mem _ (ih h)

lemma mem_queryAssign_of_ne {q : Query} {k k' : String} {v w : QVal}
    (hmem : (k, v) ∈ q) (hne : k ≠ k') : (k, v) ∈ queryAssign q k' w := by
  unfold queryAssign
  by_cases h : k' ∈ queryKeys q
  · rw [if_pos h]
    exact mem_queryUpdate_of_ne hmem hne
  · rw [if_neg h]
    exact List.mem_append_left _ hmem

lemma query_all_false_of_bad_key {q : Query} {k : String} {v : QVal}
    (hmem : (k, v) ∈ q) {allowed : List String} (hk : k ∉ allowed) :
    ¬ (q.all (fun kv => kv.1 ∈ allowed) = true) := by
  rw [List.all_eq_true]
  intro hall
  exact hk (by simpa using hall (k, v) hmem)

/-- C7: a match invocation whose filter mapping contains a key outside the
allowed set raises the invalid-search-field error with zero transport
calls — for the generic `MatchingMixin.match` against the model's
dataclass fields, and for `Document.match` against its extended allowed
set, date-range filters included, because both validate before any
processing. -/
theorem c7_invalid_field_fails_before_network {α β : Type}
    (env : MatcherEnv α) (parse : α → β) (kind : Kind) (q : Query)
    (ipp : Nat) (k : String) (v : QVal) (hmem : (k, v) ∈ q) :
    (k ∉ kindFields kind →
      matchingMixinMatch kind q ipp env parse =
        (Except.error PyError.invalidSearchField, 0)) ∧
    (k ∉ documentAllowedFields →
      documentMatch q ipp env parse =
        (Except.error PyError.invalidSearchField, 0)) := by
  constructor
  · intro hk
    unfold matchingMixinMatch
    rw [if_pos (query_all_false_of_bad_key hmem hk)]
  · intro hk
    have hne : k ≠ "model" := by
      intro hkm
      exact hk (by rw [hkm]; decide)
    have hmem' : (k, v) ∈ queryAssign q "model" (QVal.str "Record") :=
      mem_queryAssign_of_ne hmem hne
    unfold documentMatch
    rw [if_pos (query_all_false_of_bad_key hmem' hk)]

theorem c7_invalid_field_fails_before_network_witness :
    matchingMixinMatch Kind.subject
        [("bogus", QVal.str "x"), ("end_date", QVal.pydate (PyDate.mk 1989 4 15))]
        200 envTwoItemsPaginated (fun n : Nat => n) =
      (Except.error PyError.invalidSearchField, 0) ∧
    documentMatch
        [("bogus", QVal.str "x"), ("end_date", QVal.pydate (PyDate.mk 1989 4 15))]
        200 envTwoItemsPaginated (fun n : Nat => n) =
      (Except.error PyError.invalidSearchField, 0) := by
  have h := c7_invalid_field_fails_before_network envTwoItemsPaginated
    (fun n : Nat => n) Kind.subject
    [("bogus", QVal.str "x"), ("end_date", QVal.pydate (PyDate.mk 1989 4 15))]
    200 "bogus" (QVal.str "x") (by decide)
  exact ⟨h.1 (by decide), h.2 (by decide)⟩

/-! ### Claim C8 -/

/-- C8: `Subject.match(name="Soviet", value="China")` does prepare
`term="Soviet China"`, but the matcher then rejects the query — `term` is
not among Subject's dataclass fields, so `ResourceMatcher.__init__` raises
`InvalidSearchFieldError` and no search carrying the term is ever
issued. -/
theorem c8_subject_name_value_term_rejected :
    buildTermQuery [("name", QVal.str "Soviet"), ("value", QVal.str "China")] =
      Except.ok [("term", QVal.str "Soviet China")] ∧
    matchingMixinMatch Kind.subject
        [("name", QVal.str "Soviet"), ("value", QVal.str "China")] 200
        envTwoItemsPaginated (fun n : Nat => n) =
      (Except.error PyError.invalidSearchField, 0) := by
  exact ⟨by decide, by decide⟩

/-! ### Claim C9 -/

/-- C9: constructing a Coverage with `children=[]` raises `IndexError`
(the guard indexes `self.children[0]` before any length check), while the
same empty list on a Document relation field is stored unchanged by the
explicit empty-list branch of `_parse_child_records`, and the sentinel is
left untouched. -/
theorem c9_empty_children_list_indexerror :
    coverageInit "1" "test" "test" FieldValue.sentinel CoverageParentIn.sentinel
        (CoverageChildrenIn.listIn []) = Except.error PyError.indexError ∧
    documentParseChildField (DocChildIn.listIn []) =
      Except.ok (DocChildOut.keptList []) ∧
    coverageInit "1" "test" "test" FieldValue.sentinel CoverageParentIn.sentinel
        CoverageChildrenIn.sentinel =
      Except.ok (CoverageRec.mk "1" "test" "test" FieldValue.sentinel
        CoverageParentV.sentinel CoverageChildrenV.sentinel) := by
  exact ⟨by decide, by decide, by decide⟩

/-! ### Matcher construction lemmas -/

lemma resourceMatcherInit_empty_query {α β : Type} (kind : Kind) (ipp : Nat)
    (env : MatcherEnv α) (parse : α → β) :
    resourceMatcherInit kind [] ipp env parse =
      (matcherSearchBranch kind ipp env parse, 1) := rfl

/-! ### Claim C10 -/

/-- C10: `first()` and `all()` draw from the same single-pass sequence —
`first()` returns item 0 and consumes it; a subsequent full drain of
`all()` yields exactly the remaining items; a second `first()` instead
returns item 1; and once the sequence is drained, `first()` raises
`StopIteration`. -/
theorem c10_first_all_share_sequence {α β : Type} (env : MatcherEnv α)
    (parse : α → β) (x : α) (xs : List α) (pg : Pagination) (ipp : Nat)
    (hresp : env.searchFirst = SearchResponse.mk (x :: xs) (some pg))
    (hcount : pg.totalItems ≤ ipp) :
    (resourceMatcherInit Kind.publisher [] ipp env parse).1 =
      Except.ok (Matcher.mk pg.totalItems
        (MatcherSeq.fromList (parse x :: xs.map parse))) ∧
    matcherFirst env parse 1
        (Matcher.mk pg.totalItems (MatcherSeq.fromList (parse x :: xs.map parse))) =
      Except.ok ((parse x,
        Matcher.mk pg.totalItems (MatcherSeq.fromList (xs.map parse))), 0) ∧
    (matcherAllDrain env parse 1
        (Matcher.mk pg.totalItems (MatcherSeq.fromList (xs.map parse)))).1 =
      Except.ok (xs.map parse) ∧
    (∀ y ys, xs = y :: ys →
      matcherFirst env parse 1
          (Matcher.mk pg.totalItems (MatcherSeq.fromList (xs.map parse))) =
        Except.ok ((parse y,
          Matcher.mk pg.totalItems (MatcherSeq.fromList (ys.map parse))), 0)) ∧
    matcherFirst env parse 1
        (matcherAllDrain env parse 1
          (Matcher.mk pg.totalItems (MatcherSeq.fromList (xs.map parse)))).2 =
      Except.error PyError.stopIteration := by
  refine ⟨?_, rfl, rfl, fun y ys hxs => by subst hxs; rfl, rfl⟩
  rw [resourceMatcherInit_empty_query]
  show matcherSearchBranch Kind.publisher ipp env parse = _
  unfold matcherSearchBranch
  rw [hresp]
  simp [singlePageKinds, if_pos hcount]

theorem c10_first_all_share_sequence_witness :
    (resourceMatcherInit Kind.publisher [] 200 envTwoItemsPaginated
        (fun n : Nat => n)).1 =
      Except.ok (Matcher.mk 2 (MatcherSeq.fromList [10, 20])) ∧
    matcherFirst envTwoItemsPaginated (fun n : Nat => n) 1
        (Matcher.mk 2 (MatcherSeq.fromList [10, 20])) =
      Except.ok ((10, Matcher.mk 2 (MatcherSeq.fromList [20])), 0) ∧
    (matcherAllDrain envTwoItemsPaginated (fun n : Nat => n) 1
        (Matcher.mk 2 (MatcherSeq.fromList [20]))).1 = Except.ok [20] ∧
    matcherFirst envTwoItemsPaginated (fun n : Nat => n) 1
        (Matcher.mk 2 (MatcherSeq.fromList [20])) =
      Except.ok ((20, Matcher.mk 2 (MatcherSeq.fromList [])), 0) ∧
    matcherFirst envTwoItemsPaginated (fun n : Nat => n) 1
        (matcherAllDrain envTwoItemsPaginated (fun n : Nat => n) 1
          (Matcher.mk 2 (MatcherSeq.fromList [20]))).2 =
      Except.error PyError.stopIteration := by
  have h := c10_first_all_share_sequence envTwoItemsPaginated
    (fun n : Nat => n) 10 [20] (Pagination.mk 1 1 2) 200 rfl (by decide)
  exact ⟨h.1, h.2.1, h.2.2.1, h.2.2.2.1 20 [] rfl, h.2.2.2.2⟩

/-! ### Claim C3 -/

/-- C3 counterexample: `all()` does not materialize the result sequence —
after one full drain of what `all()` returned, a second `all()` drains to
the empty list, not to the same two-element list. -/
theorem c3_all_materialization_counterexample :
    (resourceMatcherInit Kind.publisher [] 200 envTwoItemsPaginated
        (fun n : Nat => n)).1 =
      Except.ok (Matcher.mk 2 (MatcherSeq.fromList [10, 20])) ∧
    (matcherAllDrain envTwoItemsPaginated (fun n : Nat => n) 1
        (Matcher.mk 2 (MatcherSeq.fromList [10, 20]))).1 = Except.ok [10, 20] ∧
    (matcherAllDrain envTwoItemsPaginated (fun n : Nat => n) 1
        ((matcherAllDrain envTwoItemsPaginated (fun n : Nat => n) 1
          (Matcher.mk 2 (MatcherSeq.fromList [10, 20]))).2)).1 =
      Except.ok ([] : List Nat) ∧
    (Except.ok ([] : List Nat) : Except PyError (List Nat)) ≠
      Except.ok [10, 20] := by
  exact ⟨by decide, by decide, by decide, by decide⟩

/-- C3 (amended): `all()` returns the live underlying sequence rather than
a materialized list: one drain yields the page's parsed entities and
leaves the sequence exhausted, so a repeated `all()` drains to nothing;
`first()` on a fresh multi-page sequence performs exactly one page fetch
and returns that page's first parsed item. -/
theorem c3_all_returns_live_sequence {α β : Type} (env : MatcherEnv α)
    (parse : α → β) (items : List α) (pg : Pagination) (ipp fuel : Nat)
    (hresp : env.searchFirst = SearchResponse.mk items (some pg))
    (hcount : pg.totalItems ≤ ipp) :
    (resourceMatcherInit Kind.publisher [] ipp env parse).1 =
      Except.ok (Matcher.mk pg.totalItems
        (MatcherSeq.fromList (items.map parse))) ∧
    (matcherAllDrain env parse fuel
        (Matcher.mk pg.totalItems (MatcherSeq.fromList (items.map parse)))).1 =
      Except.ok (items.map parse) ∧
    (matcherAllDrain env parse fuel
        ((matcherAllDrain env parse fuel
          (Matcher.mk pg.totalItems (MatcherSeq.fromList (items.map parse)))).2)).1 =
      Except.ok ([] : List β) ∧
    (∀ (resp0 : SearchResponse α) (pg0 : Pagination) (y : β) (ys : List β),
      resp0.pagination = some pg0 → pg0.page ≤ pg0.totalPages →
      (env.searchPage pg0.page).list.map parse = y :: ys →
      seqNext env parse 1 (MatcherSeq.genUnstarted resp0) =
        Except.ok (some (y, MatcherSeq.genRunning ys (env.searchPage pg0.page)
          (pg0.page + 1)), 1)) := by
  refine ⟨?_, rfl, rfl, fun resp0 pg0 y ys h1 h2 h3 => ?_⟩
  · rw [resourceMatcherInit_empty_query]
    show matcherSearchBranch Kind.publisher ipp env parse = _
    unfold matcherSearchBranch
    rw [hresp]
    simp [singlePageKinds, if_pos hcount]
  · simp only [seqNext, h1, pageGenStep, h3, if_pos h2]

theorem c3_all_returns_live_sequence_witness :
    (resourceMatcherInit Kind.publisher [] 200 envMultiPage
        (fun n : Nat => n)).1 =
      Except.ok (Matcher.mk 2 (MatcherSeq.fromList [7])) ∧
    (matcherAllDrain envMultiPage (fun n : Nat => n) 1
        (Matcher.mk 2 (MatcherSeq.fromList [7]))).1 = Except.ok [7] ∧
    (matcherAllDrain envMultiPage (fun n : Nat => n) 1
        ((matcherAllDrain envMultiPage (fun n : Nat => n) 1
          (Matcher.mk 2 (MatcherSeq.fromList [7]))).2)).1 =
      Except.ok ([] : List Nat) ∧
    seqNext envMultiPage (fun n : Nat => n) 1
        (MatcherSeq.genUnstarted
          (SearchResponse.mk [7] (some (Pagination.mk 1 2 2)))) =
      Except.ok (some (7, MatcherSeq.genRunning []
        (SearchResponse.mk [7] (some (Pagination.mk 1 2 2))) 2), 1) := by
  have h := c3_all_returns_live_sequence envMultiPage (fun n : Nat => n)
    [7] (Pagination.mk 1 2 2) 200 1 rfl (by decide)
  exact ⟨h.1, h.2.1, h.2.2.1,
    h.2.2.2 (SearchResponse.mk [7] (some (Pagination.mk 1 2 2)))
      (Pagination.mk 1 2 2) 7 [] rfl (by decide) rfl⟩

/-! ### Claim C5 -/

/-- C5 counterexample: for a single-page kind whose response list exceeds
the page size, `count` is still the list length, but `.all()` does not
return the parsed entities — the matcher takes the pagination path and
draining it fails on the missing `pagination` key. -/
theorem c5_single_page_counterexample :
    (resourceMatcherInit Kind.repository [] 1 envTwoItemsNoPagination
        (fun n : Nat => n)).1 =
      Except.ok (Matcher.mk 2 (MatcherSeq.genUnstarted
        (SearchResponse.mk [10, 20] none))) ∧
    drainSeq envTwoItemsNoPagination (fun n : Nat => n) 5
        (MatcherSeq.genUnstarted (SearchResponse.mk ([10, 20] : List Nat) none)) =
      Except.error PyError.keyError ∧
    (Except.error PyError.keyError : Except PyError (List Nat)) ≠
      Except.ok [10, 20] := by
  exact ⟨by decide, by decide, by decide⟩

/-- C5 (amended): for the single-page kinds the matcher always derives
`count` from the returned list's length, never from pagination metadata;
`.all()` yields exactly the parsed entities of that list whenever the list
fits in the page size, and for Subject regardless. -/
theorem c5_single_page_count_from_list_length {α β : Type}
    (env : MatcherEnv α) (parse : α → β) (kind : Kind) (ipp : Nat)
    (hk : kind ∈ singlePageKinds) :
    (resourceMatcherInit kind [] ipp env parse).1.map Matcher.count =
      Except.ok env.searchFirst.list.length ∧
    (resourceMatcherInit kind [] ipp env parse).2 = 1 ∧
    (env.searchFirst.list.length ≤ ipp →
      (resourceMatcherInit kind [] ipp env parse).1 =
        Except.ok (Matcher.mk env.searchFirst.list.length
          (MatcherSeq.fromList (env.searchFirst.list.map parse)))) ∧
    (kind = Kind.subject →
      (resourceMatcherInit kind [] ipp env parse).1 =
        Except.ok (Matcher.mk env.searchFirst.list.length
          (MatcherSeq.fromList (env.searchFirst.list.map parse)))) ∧
    drainSeq env parse 1
        (MatcherSeq.fromList (env.searchFirst.list.map parse)) =
      Except.ok (env.searchFirst.list.map parse) := by
  have hb : matcherSearchBranch kind ipp env parse =
      (if env.searchFirst.list.length ≤ ipp then
        Except.ok (Matcher.mk env.searchFirst.list.length
          (MatcherSeq.fromList (env.searchFirst.list.map parse)))
      else if kind = Kind.subject then
        Except.ok (Matcher.mk env.searchFirst.list.length
          (MatcherSeq.fromList (env.searchFirst.list.map parse)))
      else
        Except.ok (Matcher.mk env.searchFirst.list.length
          (MatcherSeq.genUnstarted env.searchFirst))) := by
    unfold matcherSearchBranch
    dsimp only
    rw [if_pos hk]
  refine ⟨?_, rfl, fun h1 => ?_, fun h2 => ?_, rfl⟩
  · rw [resourceMatcherInit_empty_query]
    show (matcherSearchBranch kind ipp env parse).map Matcher.count = _
    rw [hb]
    by_cases h1 : env.searchFirst.list.length ≤ ipp
    · rw [if_pos h1]; rfl
    · rw [if_neg h1]
      by_cases h2 : kind = Kind.subject
      · rw [if_pos h2]; rfl
      · rw [if_neg h2]; rfl
  · rw [resourceMatcherInit_empty_query]
    show matcherSearchBranch kind ipp env parse = _
    rw [hb, if_pos h1]
  · rw [resourceMatcherInit_empty_query]
    show matcherSearchBranch kind ipp env parse = _
    rw [hb]
    by_cases h1 : env.searchFirst.list.length ≤ ipp
    · rw [if_pos h1]
    · rw [if_neg h1, if_pos h2]

theorem c5_single_page_count_from_list_length_witness :
    (resourceMatcherInit Kind.repository [] 200 envTwoItemsNoPagination
        (fun n : Nat => n)).1 =
      Except.ok (Matcher.mk 2 (MatcherSeq.fromList [10, 20])) ∧
    (resourceMatcherInit Kind.subject [] 1 envTwoItemsNoPagination
        (fun n : Nat => n)).1 =
      Except.ok (Matcher.mk 2 (MatcherSeq.fromList [10, 20])) := by
  have h1 := c5_single_page_count_from_list_length envTwoItemsNoPagination
    (fun n : Nat => n) Kind.repository 200 (by decide)
  have h2 := c5_single_page_count_from_list_length envTwoItemsNoPagination
    (fun n : Nat => n) Kind.subject 1 (by decide)
  exact ⟨h1.2.2.1 (by decide), h2.2.2.2.1 rfl⟩

/-! ### Claim C4 -/

lemma pageDrain_pages {α β : Type} (env : MatcherEnv α) (parse : α → β)
    (T N : Nat)
    (hserver : ∀ p, 1 ≤ p → p ≤ T →
      (env.searchPage p).pagination = some (Pagination.mk p T N)) :
    ∀ fuel p pp (resp : SearchResponse α), 1 ≤ p → T + 1 - p < fuel →
      resp.pagination = some (Pagination.mk pp T N) →
      pageDrain env parse resp p fuel =
        Except.ok (((List.range' p (T + 1 - p)).map
          (fun j => (env.searchPage j).list.map parse)).flatten) := by
  intro fuel
  induction fuel with
  | zero => intro p pp resp h1 h2 h3; omega
  | succ fuel ih =>
    intro p pp resp h1 h2 h3
    simp only [pageDrain]
    rw [h3]
    by_cases hle : p ≤ T
    · simp only [if_pos hle]
      have hrec := ih (p + 1) p (env.searchPage p) (by omega) (by omega)
        (hserver p h1 hle)
      have hcnt : T + 1 - (p + 1) = T - p := by omega
      rw [hcnt] at hrec
      rw [hrec]
      have hrange : T + 1 - p = (T - p) + 1 := by omega
      rw [hrange, List.range'_succ]
      simp
    · simp only [if_neg hle]
      have hz : T + 1 - p = 0 := by omega
      rw [hz]
      simp

/-- C4: for a completed multi-page search, `count` is the first response's
`totalItems`, and draining the result sequence yields exactly the parsed
entities of pages 1..totalPages in page order — `count` many of them. -/
theorem c4_multipage_drain_count {α β : Type} (env : MatcherEnv α)
    (parse : α → β) (kind : Kind) (ipp T N : Nat)
    (hkind : kind ∉ singlePageKinds) (hkind2 : kind ≠ Kind.subject)
    (hfirst : env.searchFirst.pagination = some (Pagination.mk 1 T N))
    (hserver : ∀ p, 1 ≤ p → p ≤ T →
      (env.searchPage p).pagination = some (Pagination.mk p T N))
    (hsum : (((List.range' 1 T).map
      (fun j => (env.searchPage j).list)).flatten).length = N)
    (hmulti : ipp < N) :
    (resourceMatcherInit kind [] ipp env parse).1 =
      Except.ok (Matcher.mk N (MatcherSeq.genUnstarted env.searchFirst)) ∧
    drainSeq env parse (T + 1) (MatcherSeq.genUnstarted env.searchFirst) =
      Except.ok (((List.range' 1 T).map
        (fun j => (env.searchPage j).list.map parse)).flatten) ∧
    (((List.range' 1 T).map
      (fun j => (env.searchPage j).list.map parse)).flatten).length = N := by
  refine ⟨?_, ?_, ?_⟩
  · rw [resourceMatcherInit_empty_query]
    show matcherSearchBranch kind ipp env parse = _
    unfold matcherSearchBranch
    dsimp only
    rw [if_neg hkind, hfirst]
    have hnle : ¬ (N ≤ ipp) := by omega
    dsimp only
    rw [if_neg hnle, if_neg hkind2]
  · simp only [drainSeq]
    rw [hfirst]
    have h := pageDrain_pages env parse T N hserver (T + 1) 1 1
      env.searchFirst (le_refl 1) (by omega) hfirst
    rw [show T + 1 - 1 = T from by omega] at h
    exact h
  · rw [show (List.range' 1 T).map (fun j => (env.searchPage j).list.map parse) =
      ((List.range' 1 T).map (fun j => (env.searchPage j).list)).map
        (fun l => l.map parse) from by rw [List.map_map]; rfl]
    rw [← List.map_flatten, List.length_map]
    exact hsum

theorem c4_multipage_drain_count_witness :
    (resourceMatcherInit Kind.collection [] 1 envMultiPage
        (fun n : Nat => n)).1 =
      Except.ok (Matcher.mk 2 (MatcherSeq.genUnstarted
        (SearchResponse.mk [7] (some (Pagination.mk 1 2 2))))) ∧
    drainSeq envMultiPage (fun n : Nat => n) 3
        (MatcherSeq.genUnstarted
          (SearchResponse.mk [7] (some (Pagination.mk 1 2 2)))) =
      Except.ok [7, 8] := by
  have h := c4_multipage_drain_count envMultiPage (fun n : Nat => n)
    Kind.collection 1 2 2 (by decide) (by decide) rfl
    (fun p h1 h2 => by interval_cases p <;> rfl)
    (by decide) (by decide)
  exact ⟨h.1, h.2.1⟩

end DigitalArchive
